import Mathlib

/-!
Verification development for the story-catalog extractor of a Svelte CSF addon.

The definitions below are a shallow embedding of three source files:
* `src/utils/parser/walkers/fragment.ts` — the full-extraction fragment walker
  (`walkOnFragment`, `getStoryName`, `getStoryId`, `hashCode`, the attribute
  accessors and `getChildrenRawSource`);
* `src/indexer/parser.ts` — the indexer-mode walker (`parseForIndexer`);
* the compiled-output node locator (`extractCompiledASTNodes`) and the raw
  source recoverer (`getStoryChildrenRawSource`) with its helper locators.

Machine integers are modelled as `Int` with explicit wrap-around to signed
32 bits where the source relies on JavaScript's 32-bit operators.  Fallible
code returns `Except`.  A JavaScript `TypeError` caused by reading a property
of `undefined` is modelled by a dedicated error constructor.
-/

namespace AddonCsf

/-- JavaScript `String.prototype.slice(a, b)`, offsets treated as character
indices into the original text (the tree's offsets index exactly into it). -/
def jsSlice (s : String) (a b : Nat) : String :=
  String.mk ((s.data.drop a).take (b - a))

/-- JavaScript word character, the `\w` class of the source's regex:
ASCII letters, digits and underscore. -/
def isWordChar (c : Char) : Bool :=
  c.isAlphanum || c = '_'

/-- Split a character list into lines at newline characters. -/
def splitLinesChars : List Char → List (List Char)
  | [] => [[]]
  | c :: rest =>
    if c = '\n' then [] :: splitLinesChars rest
    else
      match splitLinesChars rest with
      | [] => [[c]]
      | l :: ls => (c :: l) :: ls

/-- Join lines with newline characters. -/
def joinLinesChars : List (List Char) → List Char
  | [] => []
  | [l] => l
  | l :: ls => l ++ '\n' :: joinLinesChars ls

/-- Drop leading and trailing whitespace characters. -/
def trimChars (l : List Char) : List Char :=
  ((l.dropWhile Char.isWhitespace).reverse.dropWhile Char.isWhitespace).reverse

/-- The external `dedent` template tag, applied by the full-extraction path:
removes the common leading indentation of the non-blank lines and trims the
result.  (Third-party library; modelled by its documented behaviour.) -/
def dedent (s : String) : String :=
  let lines := splitLinesChars s.data
  let isBlank : List Char → Bool := fun l => l.all (fun c => c = ' ' || c = '\t')
  let indent : List Char → Nat := fun l =>
    (l.takeWhile (fun c => c = ' ' || c = '\t')).length
  let indents := (lines.filter (fun l => ¬ isBlank l)).map indent
  let m := match indents with
    | [] => 0
    | x :: xs => xs.foldl Nat.min x
  String.mk (trimChars (joinLinesChars (lines.map (fun l => l.drop m))))

/-- `sanitizeCodeSlice` from the raw source recoverer:
`rawCode.replace(/(\n)/g, '').trim()` — strips every newline, then trims. -/
def sanitizeCodeSlice (rawCode : String) : String :=
  String.mk (trimChars (rawCode.data.filter (fun c => c ≠ '\n')))

/-! ## The camel-case fold used to derive a story id

Source: `name.replace(/\W+(.|$)/g, (_, chr) => chr.toUpperCase())`.
A match starts at a non-word character; `\W+` greedily consumes the maximal
run of non-word characters; the captured `(.)` is then the word character
directly after the run (or `$` at the end of the string, captured empty);
the whole match is replaced by the upper-cased capture. -/

mutual

/-- Translation of the regex replace: scanning state outside a `\W+` run. -/
def camelFold : List Char → List Char
  | [] => []
  | c :: rest =>
    if isWordChar c then c :: camelFold rest
    else camelFoldRun rest

/-- Scanning state inside a `\W+` run: the run's characters are dropped and
the first word character after the run is upper-cased. -/
def camelFoldRun : List Char → List Char
  | [] => []
  | c :: rest =>
    if isWordChar c then c.toUpper :: camelFold rest
    else camelFoldRun rest

end

/-- Restatement of the specification's words, to be compared with the source
translation `camelFold`: every maximal run of non-word characters is removed,
and the single character immediately following each run (equivalently: a word
character preceded by a removed run) is upper-cased. -/
def specFoldAux : Bool → List Char → List Char
  | _, [] => []
  | afterRun, c :: rest =>
    if isWordChar c then
      (if afterRun then c.toUpper else c) :: specFoldAux false rest
    else
      specFoldAux true rest

/-- The specification's camel-case fold (initially not after a run). -/
def specCamelFold (xs : List Char) : List Char :=
  specFoldAux false xs

/-- `generated` in `getStoryId`: the camel-case fold of the story name. -/
def generateStoryId (name : String) : String :=
  String.mk (camelFold name.data)

/-! ## The 32-bit fold hash (`hashCode`) -/

/-- Wrap an integer to a signed 32-bit value, JavaScript's `ToInt32`
(`2147483648 = 2^31`, `4294967296 = 2^32`). -/
def toInt32 (x : Int) : Int :=
  (x + 2147483648) % 4294967296 - 2147483648

/-- UTF-16 code units of the string; the source folds over
`str.split('')` with `charCodeAt(0)`. -/
def charCodes (s : String) : List Nat :=
  s.data.map Char.toNat

/-- One step of the source's reduce:
`((prev << 5) - prev + curr.charCodeAt(0)) | 0`.  `prev << 5` wraps `prev`
to 32 bits and shifts (`toInt32 (toInt32 prev * 32)`); the subtraction and
addition are exact; `| 0` wraps the result to 32 bits. -/
def hashStep (prev : Int) (c : Nat) : Int :=
  toInt32 (toInt32 (toInt32 prev * 32) - prev + (c : Int))

/-- The integer reduced by `hashCode` before `Math.abs(...).toString(16)`. -/
def hashCodeInt (s : String) : Int :=
  (charCodes s).foldl hashStep 0

/-- The step the claim describes: `acc * 31 + charCode` wrapped to 32 bits. -/
def hashStepMul (prev : Int) (c : Nat) : Int :=
  toInt32 (prev * 31 + (c : Int))

/-- The fold hash as the claim describes it. -/
def hashCodeMulInt (s : String) : Int :=
  (charCodes s).foldl hashStepMul 0

/-- Lowercase hexadecimal representation of a natural number,
JavaScript's `n.toString(16)` for `n ≥ 0`. -/
def toHex (n : Nat) : String :=
  String.mk (Nat.toDigits 16 n)

/-- `hashCode` from the fragment walker: hex of the absolute value of the
32-bit fold. -/
def hashCode (s : String) : String :=
  toHex (hashCodeInt s).natAbs

/-! ## Svelte AST model: attributes and fragment nodes -/

/-- Expressions that matter to the extractor when they appear inside an
`ExpressionTag` attribute value (or as meta property values). -/
inductive Expression where
  /-- `Literal` with a boolean value. -/
  | litBool (b : Bool)
  /-- `Literal` with a string value. -/
  | litString (s : String)
  /-- `Identifier`. -/
  | ident (name : String)
  /-- `ArrayExpression` of element expressions. -/
  | arrayLit (elements : List Expression)
  /-- Any other (dynamic) expression. -/
  | otherExpr

/-- One entry of an attribute's value array. -/
inductive ValueNode where
  /-- A `Text` chunk. -/
  | textNode (data : String)
  /-- An `ExpressionTag`. -/
  | expressionTag (expression : Expression)

/-- The `value` of a Svelte `Attribute`: `true` for the shorthand form,
otherwise an array of text chunks and expression tags. -/
inductive AttributeValue where
  /-- `value === true` (shorthand attribute). -/
  | shorthand
  /-- `value` is an array of nodes. -/
  | nodes (value : List ValueNode)

/-- An entry of `Component.attributes`. -/
inductive AttrNode where
  /-- A plain `Attribute` with a name and a value. -/
  | attribute (name : String) (value : AttributeValue)
  /-- `SpreadAttribute` and other non-`Attribute` entries. -/
  | otherAttr

/-- The fragment (markup) nodes the walkers dispatch on.  Node kinds without
a registered visitor are auto-traversed by the walker core, so only their
children and offsets matter. -/
inductive SvelteNode where
  /-- An HTML comment with its text. -/
  | comment (start stop : Nat) (data : String)
  /-- A `Text` node. -/
  | textNode (start stop : Nat) (data : String)
  /-- A `Component` with tag name, attributes and nested fragment nodes. -/
  | component (start stop : Nat) (name : String) (attributes : List AttrNode)
      (fragment : List SvelteNode)
  /-- A `SnippetBlock` whose `expression.name` declares it, with body nodes. -/
  | snippetBlock (start stop : Nat) (expressionName : String) (body : List SvelteNode)
  /-- A regular element (no visitor; children auto-traversed). -/
  | regularElement (start stop : Nat) (children : List SvelteNode)

/-- The start offset of a node. -/
def SvelteNode.start : SvelteNode → Nat
  | .comment s _ _ => s
  | .textNode s _ _ => s
  | .component s _ _ _ _ => s
  | .snippetBlock s _ _ _ => s
  | .regularElement s _ _ => s

/-- The end offset of a node. -/
def SvelteNode.stop : SvelteNode → Nat
  | .comment _ e _ => e
  | .textNode _ e _ => e
  | .component _ e _ _ _ => e
  | .snippetBlock _ e _ _ => e
  | .regularElement _ e _ => e

/-! ## Attribute accessors (`fragment.ts`) -/

/-- Errors raised by the fragment walker; `typeError` models a JavaScript
`TypeError` from reading a property of `undefined`. -/
inductive WalkError where
  /-- `Attribute 'name' is not a string` (shorthand value where a string was
  required). -/
  | attrNotString (name : String)
  /-- `Attribute "name" is not a static string`. -/
  | attrNotStaticString (name : String)
  /-- `Attribute "name" is not a static boolean`. -/
  | attrNotStaticBoolean (name : String)
  /-- `Missing prop 'name' in <Story> component.` -/
  | missingName
  /-- `Story name - ... - conflicts with another story.` -/
  | nameConflict (name : String)
  /-- A JavaScript `TypeError`. -/
  | typeError
deriving DecidableEq

/-- `lookupAttribute`: finds the first `Attribute` entry with the given name
(the predicate returns the attribute's `value`, which is always truthy —
either `true` or an array). -/
def lookupAttribute (name : String) (attributes : List AttrNode) : Option AttrNode :=
  attributes.find? (fun node =>
    match node with
    | .attribute n _ => n = name
    | .otherAttr => false)

/-- `getStringFromAttribute`: absent attribute yields nothing; shorthand is
`not a string`; a single `Text` chunk yields its data; anything else is
`not a static string`. -/
def getStringFromAttribute (name : String) (attributes : List AttrNode) :
    Except WalkError (Option String) :=
  match lookupAttribute name attributes with
  | none => .ok none
  | some (.attribute _ .shorthand) => .error (.attrNotString name)
  | some (.attribute _ (.nodes [.textNode data])) => .ok (some data)
  | some (.attribute _ (.nodes _)) => .error (.attrNotStaticString name)
  | some .otherAttr => .error .typeError

/-- `getBooleanFromAttribute`: absent yields nothing; shorthand (`value ===
true`) yields `true`; a single `ExpressionTag` with a boolean `Literal`
yields its value; anything else is `not a static boolean`. -/
def getBooleanFromAttribute (name : String) (attributes : List AttrNode) :
    Except WalkError (Option Bool) :=
  match lookupAttribute name attributes with
  | none => .ok none
  | some (.attribute _ .shorthand) => .ok (some true)
  | some (.attribute _ (.nodes [.expressionTag (.litBool b)])) => .ok (some b)
  | some (.attribute _ (.nodes _)) => .error (.attrNotStaticBoolean name)
  | some .otherAttr => .error .typeError

/-- The value of a story's `source` attribute: a static boolean or string. -/
inductive SourceValue where
  /-- A boolean `source`. -/
  | bool (b : Bool)
  /-- A string `source`. -/
  | str (s : String)
deriving DecidableEq

/-- `getSourceAttribute`: try the boolean reading; if it throws, fall back to
the string reading (whose own failure propagates). -/
def getSourceAttribute (attributes : List AttrNode) :
    Except WalkError (Option SourceValue) :=
  match getBooleanFromAttribute "source" attributes with
  | .ok v => .ok (v.map SourceValue.bool)
  | .error _ => (getStringFromAttribute "source" attributes).map (Option.map SourceValue.str)

/-- `getStoryName`: the `name` attribute must be a non-empty literal string
(`if (!name)` also rejects the empty string, which is falsy), and must not
be in `storiesNames`. -/
def getStoryName (attributes : List AttrNode) (storiesNames : List String) :
    Except WalkError String :=
  match getStringFromAttribute "name" attributes with
  | .error e => .error e
  | .ok none => .error .missingName
  | .ok (some n) =>
    if n = "" then .error .missingName
    else if storiesNames.contains n then .error (.nameConflict n)
    else .ok n

/-- The generated-id branch of `getStoryId`: the camel-case fold of the name,
with the hex fold-hash suffix (and a `logger.warn`, reported as the boolean)
when the fold collides with a previously generated id in `storiesIds`. -/
def generateOrSuffix (name : String) (storiesIds : List String) : String × Bool :=
  let generated := generateStoryId name
  if storiesIds.contains generated then (generated ++ hashCode name, true)
  else (generated, false)

/-- `getStoryId`: an explicit truthy (non-empty) literal `id` is returned
verbatim; otherwise the id is generated.  The boolean records whether the
collision warning was emitted. -/
def getStoryId (attributes : List AttrNode) (name : String) (storiesIds : List String) :
    Except WalkError (String × Bool) :=
  match getStringFromAttribute "id" attributes with
  | .error e => .error e
  | .ok (some i) =>
    if i = "" then .ok (generateOrSuffix name storiesIds)
    else .ok (i, false)
  | .ok none => .ok (generateOrSuffix name storiesIds)

/-! ## `getChildrenRawSource` (fragment walker's raw source recovery) -/

/-- Slice the original text from the first node's start to the last node's
end; reading `nodes[0]` of an empty array is a JavaScript `TypeError`. -/
def nodesSpanSlice (rawSource : String) : List SvelteNode → Except WalkError String
  | [] => .error .typeError
  | first :: rest =>
    .ok (jsSlice rawSource first.start
      (((first :: rest).getLast (List.cons_ne_nil _ _)).stop))

/-- `getChildrenRawSource`: zero child nodes yield nothing; otherwise the
body of a `SnippetBlock` declared `children` (if present among the children),
else the span over all children; either slice is dedented. -/
def getChildrenRawSource (fragmentNodes : List SvelteNode) (rawSource : String) :
    Except WalkError (Option String) :=
  match fragmentNodes with
  | [] => .ok none
  | first :: rest =>
    let nodes := first :: rest
    let snippetBlockChildren := nodes.find? (fun c =>
      match c with
      | .snippetBlock _ _ exprName _ => exprName = "children"
      | _ => false)
    match snippetBlockChildren with
    | some (.snippetBlock _ _ _ body) =>
      (nodesSpanSlice rawSource body).map (fun s => some (dedent s))
    | _ =>
      (nodesSpanSlice rawSource nodes).map (fun s => some (dedent s))

/-! ## The full-extraction walk (`walkOnFragment`) -/

/-- One story's metadata (`StoryMeta`). -/
structure StoryMeta where
  /-- The resolved id. -/
  id : String
  /-- The declared name. -/
  name : String
  /-- The attached (dedented) comment, when touching the marker. -/
  description : Option String
  /-- The static `source` attribute. -/
  source : Option SourceValue
  /-- The recovered raw source of the children. -/
  rawSource : Option String
deriving DecidableEq

/-- Assignment `state.stories[name] = meta` on a JavaScript object modelled
as an association list: an existing key is overwritten in place, a new key is
appended. -/
def setStory (stories : List (String × StoryMeta)) (name : String) (meta : StoryMeta) :
    List (String × StoryMeta) :=
  if stories.any (fun p => p.1 = name) then
    stories.map (fun p => if p.1 = name then (name, meta) else p)
  else stories ++ [(name, meta)]

/-- The mutable state threaded through the full-extraction walk: the catalog
under construction, the tracked latest comment (end offset and text), and the
number of `logger.warn` calls. -/
structure WalkState where
  /-- The catalog, story name to metadata. -/
  stories : List (String × StoryMeta)
  /-- The tracked latest comment: its end offset and its text. -/
  latestComment : Option (Nat × String)
  /-- How many collision warnings were logged. -/
  warnings : Nat
deriving DecidableEq

mutual

/-- The visitor dispatch of `walkOnFragment`.  The `Comment` visitor records
the latest comment and recurses (comments have no children); the `Component`
visitor never invokes the continuation, so component subtrees are pruned, and
it clears the comment cursor unconditionally; all other node kinds have no
visitor and are auto-traversed.  The `storiesNames` and `storiesIds` sets are
created once from the then-empty catalog and never added to afterwards, so
both story-processing calls receive the constant empty collection `[]`. -/
def visitNode (marker : String) (source : String) (st : WalkState) :
    SvelteNode → Except WalkError WalkState
  | .comment _ stop data => .ok { st with latestComment := some (stop, data) }
  | .textNode _ _ _ => .ok st
  | .snippetBlock _ _ _ body => visitNodes marker source st body
  | .regularElement _ _ children => visitNodes marker source st children
  | .component start _ name attributes fragment =>
    if name = marker then
      match getStoryName attributes [] with
      | .error e => .error e
      | .ok storyName =>
        match getSourceAttribute attributes with
        | .error e => .error e
        | .ok sourceAttribute =>
          match getChildrenRawSource fragment source with
          | .error e => .error e
          | .ok childrenRawSource =>
            match getStoryId attributes storyName [] with
            | .error e => .error e
            | .ok (id, warned) =>
              let description :=
                match st.latestComment with
                | some (cend, cdata) =>
                  if (cend : Int) = (start : Int) - 1 then some (dedent cdata) else none
                | none => none
              let meta : StoryMeta :=
                { id := id, name := storyName, description := description,
                  source := sourceAttribute, rawSource := childrenRawSource }
              .ok { stories := setStory st.stories storyName meta,
                    latestComment := none,
                    warnings := st.warnings + (if warned then 1 else 0) }
    else .ok { st with latestComment := none }

/-- Preorder traversal of a node list, threading the state and aborting on
the first fatal error. -/
def visitNodes (marker : String) (source : String) (st : WalkState) :
    List SvelteNode → Except WalkError WalkState
  | [] => .ok st
  | n :: rest =>
    match visitNode marker source st n with
    | .error e => .error e
    | .ok st' => visitNodes marker source st' rest

end

/-- `walkOnFragment`: walk the document's markup fragment with the resolved
marker tag name, starting from an empty catalog, no tracked comment and no
warnings. -/
def walkOnFragment (storyIdentifierName source : String) (fragment : List SvelteNode) :
    Except WalkError WalkState :=
  visitNodes storyIdentifierName source
    { stories := [], latestComment := none, warnings := 0 } fragment

/-! ## Raw source recoverer (`getStoryChildrenRawSource` and its locators) -/

/-- Errors raised by the raw source recovery. -/
inductive RecoverError where
  /-- `Invalid schema. Expected '<Story />'s attribute 'children' to be an
  expression with identifier to snippet block. Stories file: ...` -/
  | invalidChildrenAttr (filename : Option String)
  /-- `Invalid schema - expected 'setTemplate' first argument to be an
  identifier. Stories file: ...` -/
  | invalidSetTemplateArg (filename : Option String)
  /-- `Invalid schema` (meta `component` property is not an identifier). -/
  | invalidMetaComponent
  /-- A JavaScript `TypeError`. -/
  | typeError

/-- A snippet block as extracted into `SvelteASTNodes`: its declared
`expression.name` and its body nodes. -/
structure SnippetBlockNode where
  /-- The snippet's declared name. -/
  expressionName : String
  /-- The nodes of the snippet's body fragment. -/
  bodyNodes : List SvelteNode

/-- The subset of the extracted `SvelteASTNodes` bundle that raw source
recovery consults. -/
structure SvelteASTNodes where
  /-- All root-level snippet blocks of the document. -/
  snippetBlocks : List SnippetBlockNode
  /-- The arguments of the `setTemplate(...)` call, when one exists. -/
  setTemplateCall : Option (List Expression)
  /-- The value of the `component` property passed to `defineMeta`, if any. -/
  metaComponentProperty : Option Expression

/-- `getSnippetBlockBodyRawCode`: slice the original code over the snippet's
body span and sanitize it (newlines stripped, trimmed); an empty body makes
`nodes[0]` a `TypeError`. -/
def getSnippetBlockBodyRawCode (originalCode : String) (node : SnippetBlockNode) :
    Except RecoverError String :=
  match node.bodyNodes with
  | [] => .error .typeError
  | first :: rest =>
    .ok (sanitizeCodeSlice (jsSlice originalCode first.start
      (((first :: rest).getLast (List.cons_ne_nil _ _)).stop)))

/-- `findTemplateSnippetBlock`: the first snippet block whose declared name
equals the requested name; `none` when no snippet matches. -/
def findTemplateSnippetBlock (name : String) (svelteASTNodes : SvelteASTNodes) :
    Option SnippetBlockNode :=
  svelteASTNodes.snippetBlocks.find? (fun snippetBlock => name = snippetBlock.expressionName)

/-- `findSetTemplateSnippetBlock`: nothing without a `setTemplate` call; its
first argument must be an identifier (reading `arguments[0]` of an empty
argument list is a `TypeError`), which is then looked up among the snippet
blocks. -/
def findSetTemplateSnippetBlock (filename : Option String)
    (svelteASTNodes : SvelteASTNodes) : Except RecoverError (Option SnippetBlockNode) :=
  match svelteASTNodes.setTemplateCall with
  | none => .ok none
  | some [] => .error .typeError
  | some (.ident n :: _) => .ok (findTemplateSnippetBlock n svelteASTNodes)
  | some (_ :: _) => .error (.invalidSetTemplateArg filename)

/-- `findChildrenPropSnippetBlock`: nothing without a `children` attribute
(the attribute node is obtained through `extractStoryAttributesNodes`,
modelled by `lookupAttribute`); a shorthand value, a text value or a
non-identifier expression is an invalid-schema failure; an identifier is
looked up among the snippet blocks — a missing snippet yields `none`. -/
def findChildrenPropSnippetBlock (attributes : List AttrNode) (filename : Option String)
    (svelteASTNodes : SvelteASTNodes) : Except RecoverError (Option SnippetBlockNode) :=
  match lookupAttribute "children" attributes with
  | none => .ok none
  | some (.attribute _ .shorthand) => .error (.invalidChildrenAttr filename)
  | some (.attribute _ (.nodes [])) => .error .typeError
  | some (.attribute _ (.nodes (.textNode _ :: _))) => .error (.invalidChildrenAttr filename)
  | some (.attribute _ (.nodes (.expressionTag (.ident n) :: _))) =>
    .ok (findTemplateSnippetBlock n svelteASTNodes)
  | some (.attribute _ (.nodes (.expressionTag _ :: _))) =>
    .error (.invalidChildrenAttr filename)
  | some .otherAttr => .error .typeError

/-- `extractStoryChildrenSnippetBlock` (modelled after its use here: the
snippet block declared `children` among the component's direct children). -/
def extractStoryChildrenSnippetBlock (fragmentNodes : List SvelteNode) :
    Option SnippetBlockNode :=
  match fragmentNodes.find? (fun c =>
    match c with
    | .snippetBlock _ _ n _ => n = "children"
    | _ => false) with
  | some (.snippetBlock _ _ n body) => some ⟨n, body⟩
  | _ => none

/-- `getDefineMetaComponentName`: `!unspecified` without a `component` meta
property; an identifier property yields its name; anything else is an
invalid-schema failure. -/
def getDefineMetaComponentName (svelteASTNodes : SvelteASTNodes) :
    Except RecoverError String :=
  match svelteASTNodes.metaComponentProperty with
  | none => .ok "!unspecified"
  | some (.ident n) => .ok n
  | some _ => .error .invalidMetaComponent

/-- `getStoryChildrenRawSource`: for a self-closing component, try the
`children`-attribute snippet, then the `setTemplate` snippet, then synthesize
the placeholder body; for inline content, try the inner `children` snippet
block, else the span over all children. -/
def getStoryChildrenRawSource (filename : Option String)
    (svelteASTNodes : SvelteASTNodes) (originalCode : String)
    (attributes : List AttrNode) (fragmentNodes : List SvelteNode) :
    Except RecoverError String :=
  match fragmentNodes with
  | [] =>
    match findChildrenPropSnippetBlock attributes filename svelteASTNodes with
    | .error e => .error e
    | .ok (some blk) => getSnippetBlockBodyRawCode originalCode blk
    | .ok none =>
      match findSetTemplateSnippetBlock filename svelteASTNodes with
      | .error e => .error e
      | .ok (some blk) => getSnippetBlockBodyRawCode originalCode blk
      | .ok none =>
        match getDefineMetaComponentName svelteASTNodes with
        | .error e => .error e
        | .ok n => .ok ("<" ++ n ++ " \x7b...args\x7d />")
  | first :: rest =>
    match extractStoryChildrenSnippetBlock (first :: rest) with
    | some blk => getSnippetBlockBodyRawCode originalCode blk
    | none =>
      .ok (sanitizeCodeSlice (jsSlice originalCode first.start
        (((first :: rest).getLast (List.cons_ne_nil _ _)).stop)))

/-! ## Script-side (estree) model, shared by the indexer-mode walker and the
compiled-output node locator -/

/-- The package identifier of the marker-providing addon (`pkg.name`). -/
def pkgName : String := "@storybook/addon-svelte-csf"

/-- An import specifier of an `ImportDeclaration`. -/
inductive EsSpecifier where
  /-- `ImportSpecifier`, with its `imported` and `local` names. -/
  | importSpecifier (imported localName : String)
  /-- `ImportDefaultSpecifier`. -/
  | importDefaultSpecifier (localName : String)
  /-- `ImportNamespaceSpecifier`. -/
  | importNamespaceSpecifier (localName : String)

/-- A property of an `ObjectPattern` (destructuring). -/
inductive EsPatternProp where
  /-- A `Property` whose key and value are identifiers. -/
  | property (keyName valueName : String)
  /-- Rest elements and other property shapes. -/
  | otherProp

/-- A binding pattern. -/
inductive EsPattern where
  /-- An `Identifier` pattern. -/
  | identifierPat (name : String)
  /-- An `ObjectPattern`. -/
  | objectPattern (properties : List EsPatternProp)
  /-- Any other pattern. -/
  | otherPat

/-- A script expression. -/
inductive EsExpr where
  /-- An `Identifier`. -/
  | identifierE (name : String)
  /-- A `CallExpression` with its callee and arguments. -/
  | callExpression (callee : EsExpr) (args : List EsExpr)
  /-- An `ObjectExpression`; properties restricted to identifier keys
  (the visitors only inspect those). -/
  | objectExpression (properties : List (String × EsExpr))
  /-- A string `Literal`. -/
  | litStringE (s : String)
  /-- An `ArrayExpression`. -/
  | arrayE (elements : List EsExpr)
  /-- Any other expression. -/
  | otherE

/-- The declaration carried by an `ExportDefaultDeclaration`. -/
inductive EsDecl where
  /-- A `FunctionDeclaration`, whose `id` may be absent. -/
  | functionDecl (id : Option String)
  /-- An `Identifier` (default export of a binding declared elsewhere). -/
  | identifierDecl (name : String)
  /-- Any other declaration or expression. -/
  | otherDecl

/-- A top-level statement of a program. -/
inductive EsStmt where
  /-- An `ImportDeclaration` with its source string and specifiers. -/
  | importDeclaration (sourceValue : String) (specifiers : List EsSpecifier)
  /-- A `VariableDeclaration` with its declarators (pattern and initializer). -/
  | variableDeclaration (declarations : List (EsPattern × Option EsExpr))
  /-- An `ExportDefaultDeclaration`. -/
  | exportDefaultDeclaration (declaration : EsDecl)
  /-- A top-level `FunctionDeclaration`, `id` possibly absent. -/
  | functionDeclaration (id : Option String)
  /-- An `ExportNamedDeclaration` wrapping a `VariableDeclaration`. -/
  | exportNamedVariableDeclaration (declarations : List (EsPattern × Option EsExpr))
  /-- Any other statement (no children relevant to the walks). -/
  | otherStmt

/-! ## Indexer-mode walker (`parseForIndexer`) -/

/-- Fatal errors of the indexer pass, each carrying the offending filename
where the source's error class does. -/
inductive IndexerError where
  /-- `MissingModuleTagError`. -/
  | missingModuleTag (filename : String)
  /-- `DefaultOrNamespaceImportUsedError`. -/
  | defaultOrNamespaceImportUsed (filename : String)
  /-- `GetDefineMetaFirstArgumentError`. -/
  | getDefineMetaFirstArgument (filename : String)
  /-- `throw new Error('Invalid syntax')`. -/
  | invalidSyntax
  /-- Attribute value is not a single static string. -/
  | attrNotStaticString (filename : String)
  /-- Attribute value is not an array of literal strings. -/
  | attrNotArrayOfStrings (filename : String)
  /-- A story with neither a name nor an export name. -/
  | noStoryIdentifier (filename : String)
  /-- Meta property value is not a static string. -/
  | propertyNotStaticString (filename : String)
  /-- Meta property value is not an array of literal strings. -/
  | propertyNotArrayOfStrings (filename : String)
  /-- A JavaScript `TypeError`. -/
  | jsTypeError
deriving DecidableEq

/-- The state threaded through the indexer walk: the result under
construction (`meta` and `stories`), the `foundMeta` flag, and the three
mutable marker identifiers. -/
structure IndexerState where
  /-- `results.meta.title`. -/
  metaTitle : Option String
  /-- `results.meta.tags`. -/
  metaTags : Option (List String)
  /-- `results.stories`, in document order: export name, name, tags. -/
  stories : List (String × String × List String)
  /-- Whether a meta object has been found. -/
  foundMeta : Bool
  /-- The active `defineMeta` identifier. -/
  defineMetaIdentifier : String
  /-- The active marker (story component) identifier. -/
  componentStoryIdentifier : String
  /-- The active legacy `Meta` component identifier. -/
  componentMetaIdentifier : String
deriving DecidableEq

/-- The state at the start of `parseForIndexer`: empty results and the
default identifiers. -/
def initialIndexerState : IndexerState :=
  { metaTitle := none, metaTags := none, stories := [], foundMeta := false,
    defineMetaIdentifier := "defineMeta",
    componentStoryIdentifier := "Story",
    componentMetaIdentifier := "Meta" }

/-- Modelled from the spec: `getStringValueFromAttribute` (module
`#parser/analyse/story/attributes`, not under `src/`) — a missing attribute
yields nothing; a single static string (text chunk or string-literal
expression tag) yields the string; anything else is fatal. -/
def getStringValueFromAttribute (filename : String) (attr : Option AttrNode) :
    Except IndexerError (Option String) :=
  match attr with
  | none => .ok none
  | some (.attribute _ (.nodes [.textNode data])) => .ok (some data)
  | some (.attribute _ (.nodes [.expressionTag (.litString s)])) => .ok (some s)
  | some _ => .error (.attrNotStaticString filename)

/-- A literal string element of an array expression. -/
def exprToStringLit : Expression → Option String
  | .litString s => some s
  | _ => none

/-- Modelled from the spec: `getArrayOfStringsValueFromAttribute` (module
`#parser/analyse/story/attributes`, not under `src/`) — a missing attribute
defaults to the empty array; an array of literal strings yields them; a
non-literal element (or any other shape) is fatal. -/
def getArrayOfStringsValueFromAttribute (filename : String) (attr : Option AttrNode) :
    Except IndexerError (List String) :=
  match attr with
  | none => .ok []
  | some (.attribute _ (.nodes [.expressionTag (.arrayLit elems)])) =>
    match elems.mapM exprToStringLit with
    | some xs => .ok xs
    | none => .error (.attrNotArrayOfStrings filename)
  | some _ => .error (.attrNotArrayOfStrings filename)

/-- Modelled from the spec: `getStoryIdentifiers` (module
`#parser/analyse/story/attributes/identifiers`, not under `src/`) — each
marker yields its export name and name, one derived from the other via the
shared camel-case rule when absent; a marker with neither is fatal. -/
def getStoryIdentifiers (filename : String) (exportNameAttr nameAttr : Option AttrNode) :
    Except IndexerError (String × String) :=
  match getStringValueFromAttribute filename exportNameAttr with
  | .error e => .error e
  | .ok exportName =>
    match getStringValueFromAttribute filename nameAttr with
    | .error e => .error e
    | .ok name =>
      match exportName, name with
      | some e, some n => .ok (e, n)
      | some e, none => .ok (e, e)
      | none, some n => .ok (generateStoryId n, n)
      | none, none => .error (.noStoryIdentifier filename)

/-- The legacy `<Meta>` attribute scan of the indexer's `Component` visitor.
For each `title` / `tags` attribute the source EVALUATES the extractor and
COMPARES the result to the state with `===` instead of assigning it
(`state.meta.title === getStringValueFromAttribute(...)`), so extraction
failures still propagate but the extracted values are discarded and the state
is never updated. -/
def legacyMetaAttributeScan (filename : String) : List AttrNode → Except IndexerError Unit
  | [] => .ok ()
  | .attribute n v :: rest =>
    if n = "title" then
      match getStringValueFromAttribute filename (some (.attribute n v)) with
      | .error e => .error e
      | .ok _ => legacyMetaAttributeScan filename rest
    else if n = "tags" then
      match getArrayOfStringsValueFromAttribute filename (some (.attribute n v)) with
      | .error e => .error e
      | .ok _ => legacyMetaAttributeScan filename rest
    else legacyMetaAttributeScan filename rest
  | .otherAttr :: rest => legacyMetaAttributeScan filename rest

/-- The indexer's `Component` visitor: before a meta object is found, in
legacy mode, a component named by the active `Meta` identifier gets its
`title` / `tags` attributes scanned (values discarded, see
`legacyMetaAttributeScan`); a component named by the active story identifier
contributes an entry to `stories`.  The visitor does not recurse. -/
def visitComponentIdx (legacyTemplate : Bool) (filename : String) (st : IndexerState)
    (name : String) (attributes : List AttrNode) : Except IndexerError IndexerState :=
  let afterMeta : Except IndexerError Unit :=
    if ¬ st.foundMeta ∧ legacyTemplate ∧ name = st.componentMetaIdentifier then
      legacyMetaAttributeScan filename attributes
    else .ok ()
  match afterMeta with
  | .error e => .error e
  | .ok _ =>
    if name = st.componentStoryIdentifier then
      match getStoryIdentifiers filename
          (lookupAttribute "exportName" attributes) (lookupAttribute "name" attributes) with
      | .error e => .error e
      | .ok (exportName, storyName) =>
        match getArrayOfStringsValueFromAttribute filename
            (lookupAttribute "tags" attributes) with
        | .error e => .error e
        | .ok tags =>
          .ok { st with stories := st.stories ++ [(exportName, storyName, tags)] }
    else .ok st

/-- The indexer's `Fragment` visitor: only `Component` children are visited
(comments, text, elements and snippet blocks at the top level are skipped). -/
def visitFragmentIdx (legacyTemplate : Bool) (filename : String) :
    IndexerState → List SvelteNode → Except IndexerError IndexerState
  | st, [] => .ok st
  | st, .component _ _ name attributes _ :: rest =>
    match visitComponentIdx legacyTemplate filename st name attributes with
    | .error e => .error e
    | .ok st' => visitFragmentIdx legacyTemplate filename st' rest
  | st, _ :: rest => visitFragmentIdx legacyTemplate filename st rest

/-- The indexer's `Property` visitor (meta object scan): a `title` property
stores its static string, a `tags` property its array of literal strings. -/
def visitPropertyIdx (filename : String) (st : IndexerState) (keyName : String)
    (value : EsExpr) : Except IndexerError IndexerState :=
  let st₁ :=
    if keyName = "title" then
      match value with
      | .litStringE s => Except.ok { st with metaTitle := some s }
      | _ => Except.error (IndexerError.propertyNotStaticString filename)
    else Except.ok st
  match st₁ with
  | .error e => .error e
  | .ok st₂ =>
    if keyName = "tags" then
      match value with
      | .arrayE elems =>
        match elems.mapM (fun e => match e with | .litStringE s => some s | _ => none) with
        | some xs => .ok { st₂ with metaTags := some xs }
        | none => .error (.propertyNotArrayOfStrings filename)
      | _ => .error (.propertyNotArrayOfStrings filename)
    else .ok st₂

/-- The indexer's `ObjectExpression` visitor scans the meta object's
identifier-keyed properties.  (The source's handler visits the object node
itself again for every property — a self-visit that cannot terminate; it is
modelled as visiting each property, the evident intent.  The handler is
unreachable from `parseForIndexer`, see `visitRootIdx`.) -/
def visitObjectExpressionIdx (filename : String) :
    IndexerState → List (String × EsExpr) → Except IndexerError IndexerState
  | st, [] => .ok st
  | st, (k, v) :: rest =>
    match visitPropertyIdx filename st k v with
    | .error e => .error e
    | .ok st' => visitObjectExpressionIdx filename st' rest

/-- The indexer's `ImportDeclaration` visitor (only ever invoked by
`visitProgramIdx` on imports of the addon package in legacy mode): any
non-`ImportSpecifier` specifier is the fatal default/namespace import error;
for plain specifiers the source then reads `specifier.import.name`, a
property that does not exist on an estree `ImportSpecifier` (`imported` is
the real field), so reaching one in legacy mode is a `TypeError`. -/
def visitImportDeclarationIdx (legacyTemplate : Bool) (filename : String)
    (st : IndexerState) : List EsSpecifier → Except IndexerError IndexerState
  | [] => .ok st
  | .importSpecifier _ _ :: rest =>
    if legacyTemplate then .error .jsTypeError
    else visitImportDeclarationIdx legacyTemplate filename st rest
  | _ :: _ => .error (.defaultOrNamespaceImportUsed filename)

/-- The indexer's `VariableDeclaration` visitor: a destructuring
`defineMeta(...)` declaration sets `foundMeta`, rebinds the story identifier
and scans the first argument's object expression; in legacy mode a plain
`meta = {...}` declaration is scanned the same way. -/
def visitVariableDeclarationIdx (legacyTemplate : Bool) (filename : String)
    (st : IndexerState) (declarations : List (EsPattern × Option EsExpr)) :
    Except IndexerError IndexerState :=
  match declarations with
  | [] => .error .jsTypeError
  | (id, init) :: _ =>
    let fromCall : Except IndexerError IndexerState :=
      match init with
      | some (.callExpression (.identifierE calleeName) args) =>
        if calleeName = st.defineMetaIdentifier then
          let st := { st with foundMeta := true }
          match id with
          | .objectPattern properties =>
            match properties.find? (fun p =>
                match p with
                | .property keyName _ => keyName = st.componentStoryIdentifier
                | .otherProp => false) with
            | some (.property _ valueName) =>
              let st := { st with componentStoryIdentifier := valueName }
              match args with
              | [] => .error .jsTypeError
              | .objectExpression props :: _ => visitObjectExpressionIdx filename st props
              | _ :: _ => .error (.getDefineMetaFirstArgument filename)
            | _ => .error .invalidSyntax
          | _ => .error .invalidSyntax
        else .ok st
      | _ => .ok st
    match fromCall with
    | .error e => .error e
    | .ok st' =>
      if legacyTemplate ∧ ¬ st'.foundMeta then
        match id with
        | .identifierPat n =>
          if n = "meta" then
            match init with
            | some (.objectExpression props) =>
              visitObjectExpressionIdx filename { st' with foundMeta := true } props
            | _ => .error (.getDefineMetaFirstArgument filename)
          else .ok st'
        | _ => .ok st'
      else .ok st'

/-- The indexer's `Program` visitor: visits addon-package imports (legacy
mode only), variable declarations, and (legacy mode) exported variable
declarations.  Unreachable from `parseForIndexer`, see `visitRootIdx`. -/
def visitProgramIdx (legacyTemplate : Bool) (filename : String) :
    IndexerState → List EsStmt → Except IndexerError IndexerState
  | st, [] => .ok st
  | st, stmt :: rest =>
    let step : Except IndexerError IndexerState :=
      match stmt with
      | .importDeclaration sourceValue specifiers =>
        if legacyTemplate ∧ sourceValue = pkgName then
          visitImportDeclarationIdx legacyTemplate filename st specifiers
        else .ok st
      | .variableDeclaration declarations =>
        visitVariableDeclarationIdx legacyTemplate filename st declarations
      | .exportNamedVariableDeclaration declarations =>
        if legacyTemplate then
          visitVariableDeclarationIdx legacyTemplate filename st declarations
        else .ok st
      | _ => .ok st
    match step with
    | .error e => .error e
    | .ok st' => visitProgramIdx legacyTemplate filename st' rest

/-- The indexer's `Script` visitor: only a `module`-context script's content
program is visited.  Unreachable from `parseForIndexer`: the walk starts at
the root, whose visitor never visits a script (see `visitRootIdx`), and
script nodes occur nowhere else. -/
def visitScriptIdx (legacyTemplate : Bool) (filename : String) (st : IndexerState)
    (isModuleContext : Bool) (content : List EsStmt) : Except IndexerError IndexerState :=
  if isModuleContext then visitProgramIdx legacyTemplate filename st content
  else .ok st

/-- A parsed document root: the optional module script's program and the
markup fragment. -/
structure RootNode where
  /-- The `module` script content, when the document has one. -/
  module : Option (List EsStmt)
  /-- The markup fragment's nodes. -/
  fragment : List SvelteNode

/-- The indexer's `Root` visitor: a missing module script outside legacy mode
is fatal; then ONLY the markup fragment is visited — the module script is
never visited, so the script-side visitors above cannot fire. -/
def visitRootIdx (legacyTemplate : Bool) (filename : String) (root : RootNode) :
    Except IndexerError IndexerState :=
  match root.module, legacyTemplate with
  | none, false => .error (.missingModuleTag filename)
  | _, _ => visitFragmentIdx legacyTemplate filename initialIndexerState root.fragment

/-- `parseForIndexer`: walk the document from its root. -/
def parseForIndexer (legacyTemplate : Bool) (filename : String) (root : RootNode) :
    Except IndexerError IndexerState :=
  visitRootIdx legacyTemplate filename root

/-! ## Compiled-output node locator (`extractCompiledASTNodes`) -/

/-- Fatal errors of the compiled-output locator; every message of the source
interpolates the offending filename, modelled by the carried field. -/
inductive CompiledError where
  /-- `Don't use the default/namespace import from "..." in the stories
  file: ...` -/
  | defaultOrNamespaceImport (filename : Option String)
  /-- `Could not find 'defineMeta' imported from ...`. -/
  | defineMetaImportNotFound (filename : Option String)
  /-- `Could not find '...({ ... })' in the compiled output ...`. -/
  | defineMetaVariableDeclarationNotFound (filename : Option String)
  /-- `Could not find 'export default' ...`. -/
  | exportDefaultNotFound (filename : Option String)
  /-- `Could not find 'Story' identifier ...`. -/
  | storyIdentifierNotFound (filename : Option String)
  /-- `Could not find the stories component ... function ...`. -/
  | storiesFunctionDeclarationNotFound (filename : Option String)
  /-- A JavaScript `TypeError`. -/
  | jsTypeError

/-- `isStoriesComponentFn`: the function's name ends with `_stories`
(optional chaining makes a missing `id` simply falsy). -/
def isStoriesComponentFn (id : Option String) : Bool :=
  match id with
  | some n => n.endsWith "_stories"
  | none => false

/-- The partial `CompiledASTNodes` accumulator threaded through the locator
walk. -/
structure CompiledState where
  /-- The matched `defineMeta` import specifier. -/
  defineMetaImport : Option EsSpecifier
  /-- The matched `const { Story } = defineMeta({...})` declaration. -/
  defineMetaVariableDeclaration : Option EsStmt
  /-- The `export default` declaration. -/
  exportDefault : Option EsStmt
  /-- The destructured story identifier's name. -/
  storyIdentifier : Option String
  /-- The located stories component function declaration. -/
  storiesFunctionDeclaration : Option EsStmt

/-- The locator's `ImportSpecifier` visitor: a specifier importing
`defineMeta` is recorded. -/
def visitImportSpecifierCompiled (st : CompiledState) : EsSpecifier → CompiledState
  | .importSpecifier imported localName =>
    if imported = "defineMeta" then
      { st with defineMetaImport := some (.importSpecifier imported localName) }
    else st
  | _ => st

/-- The specifier loop of the locator's `ImportDeclaration` visitor: any
non-`ImportSpecifier` is the fatal default/namespace import error; plain
specifiers are visited. -/
def visitSpecifiersCompiled (filename : Option String) (st : CompiledState) :
    List EsSpecifier → Except CompiledError CompiledState
  | [] => .ok st
  | .importSpecifier imported localName :: rest =>
    visitSpecifiersCompiled filename
      (visitImportSpecifierCompiled st (.importSpecifier imported localName)) rest
  | _ :: _ => .error (.defaultOrNamespaceImport filename)

/-- The local name bound by the recorded `defineMeta` import, if any
(`state.defineMetaImport?.local.name`). -/
def defineMetaLocalName (st : CompiledState) : Option String :=
  match st.defineMetaImport with
  | some (.importSpecifier _ localName) => some localName
  | _ => none

/-- The locator's statement dispatch.  `ImportDeclaration`: specifiers of the
addon package's import are checked and visited (other imports are pruned).
`VariableDeclaration`: a destructuring call of the recorded `defineMeta`
local name is recorded and its `Story: identifier` property sets the story
identifier.  `ExportDefaultDeclaration` is recorded; only in production mode
does a stories-named function declaration inside it count as the stories
function (the handler does not recurse).  A top-level `FunctionDeclaration`
whose name ends with `_stories` is recorded.  An `ExportNamedDeclaration`
has no handler, so its inner variable declaration is auto-traversed.
`visitVariableDeclCompiled` is the `VariableDeclaration` handler, shared with
the auto-traversed export case. -/
def visitVariableDeclCompiled (st : CompiledState)
    (declarations : List (EsPattern × Option EsExpr)) :
    Except CompiledError CompiledState :=
  match declarations with
  | [] => .error .jsTypeError
  | (id, init) :: _ =>
    match id, init with
    | .objectPattern properties, some (.callExpression (.identifierE calleeName) _) =>
      if some calleeName = defineMetaLocalName st then
        let st := { st with
          defineMetaVariableDeclaration := some (.variableDeclaration declarations) }
        .ok (properties.foldl (fun acc p =>
          match p with
          | .property keyName valueName =>
            if keyName = "Story" then { acc with storyIdentifier := some valueName }
            else acc
          | .otherProp => acc) st)
      else .ok st
    | _, _ => .ok st

/-- The remaining statement dispatch of the locator walk. -/
def visitStmtCompiled (isProduction : Bool) (filename : Option String)
    (st : CompiledState) : EsStmt → Except CompiledError CompiledState
  | .importDeclaration sourceValue specifiers =>
    if sourceValue = pkgName then visitSpecifiersCompiled filename st specifiers
    else .ok st
  | .variableDeclaration declarations => visitVariableDeclCompiled st declarations
  | .exportDefaultDeclaration declaration =>
    let st := { st with exportDefault := some (.exportDefaultDeclaration declaration) }
    .ok (if isProduction then
      match declaration with
      | .functionDecl id =>
        if isStoriesComponentFn id then
          { st with storiesFunctionDeclaration := some (.functionDeclaration id) }
        else st
      | _ => st
    else st)
  | .functionDeclaration id =>
    .ok (if isStoriesComponentFn id then
      { st with storiesFunctionDeclaration := some (.functionDeclaration id) }
    else st)
  | .exportNamedVariableDeclaration declarations =>
    visitVariableDeclCompiled st declarations
  | .otherStmt => .ok st

/-- The locator walk over the compiled program's statements. -/
def walkCompiled (isProduction : Bool) (filename : Option String) :
    CompiledState → List EsStmt → Except CompiledError CompiledState
  | st, [] => .ok st
  | st, stmt :: rest =>
    match visitStmtCompiled isProduction filename st stmt with
    | .error e => .error e
    | .ok st' => walkCompiled isProduction filename st' rest

/-- The complete `CompiledASTNodes` bundle; all fields mandatory. -/
structure CompiledNodes where
  /-- The `defineMeta` import specifier. -/
  defineMetaImport : EsSpecifier
  /-- The `defineMeta(...)` variable declaration. -/
  defineMetaVariableDeclaration : EsStmt
  /-- The default export. -/
  exportDefault : EsStmt
  /-- The story identifier's name. -/
  storyIdentifier : String
  /-- The stories component function. -/
  storiesFunctionDeclaration : EsStmt

/-- `extractCompiledASTNodes`: walk the compiled program, then fail with a
filename-qualified `not found` error for each node still missing, in the
source's order. -/
def extractCompiledASTNodes (isProduction : Bool) (filename : Option String)
    (ast : List EsStmt) : Except CompiledError CompiledNodes :=
  match walkCompiled isProduction filename
      { defineMetaImport := none, defineMetaVariableDeclaration := none,
        exportDefault := none, storyIdentifier := none,
        storiesFunctionDeclaration := none } ast with
  | .error e => .error e
  | .ok st =>
    match st.defineMetaImport with
    | none => .error (.defineMetaImportNotFound filename)
    | some defineMetaImport =>
      match st.defineMetaVariableDeclaration with
      | none => .error (.defineMetaVariableDeclarationNotFound filename)
      | some defineMetaVariableDeclaration =>
        match st.exportDefault with
        | none => .error (.exportDefaultNotFound filename)
        | some exportDefault =>
          match st.storyIdentifier with
          | none => .error (.storyIdentifierNotFound filename)
          | some storyIdentifier =>
            match st.storiesFunctionDeclaration with
            | none => .error (.storiesFunctionDeclarationNotFound filename)
            | some storiesFunctionDeclaration =>
              .ok { defineMetaImport := defineMetaImport,
                    defineMetaVariableDeclaration := defineMetaVariableDeclaration,
                    exportDefault := exportDefault,
                    storyIdentifier := storyIdentifier,
                    storiesFunctionDeclaration := storiesFunctionDeclaration }

/-! ## Helper lemmas -/

/-- The source translation of the regex fold agrees with the specification's
formulation, in both scanning states. -/
theorem camelFold_eq_specFoldAux (xs : List Char) :
    camelFold xs = specFoldAux false xs ∧ camelFoldRun xs = specFoldAux true xs := by
  induction xs with
  | nil => exact ⟨rfl, rfl⟩
  | cons c rest ih =>
    by_cases h : isWordChar c
    · constructor
      · simp [camelFold, specFoldAux, h, ih.1]
      · simp [camelFoldRun, specFoldAux, h, ih.1]
    · constructor
      · simp [camelFold, specFoldAux, h, ih.2]
      · simp [camelFoldRun, specFoldAux, h, ih.2]

/-- `toInt32` only depends on the argument's residue modulo `2^32`. -/
theorem toInt32_mod_eq {a b : Int} (h : a % 4294967296 = b % 4294967296) :
    toInt32 a = toInt32 b := by
  unfold toInt32; omega

/-- `toInt32` preserves the residue modulo `2^32`. -/
theorem toInt32_emod_self (a : Int) : toInt32 a % 4294967296 = a % 4294967296 := by
  unfold toInt32; omega

/-- The shift-based hash step equals the multiply-by-31 step under 32-bit
wrap-around, for every (not necessarily in-range) accumulator. -/
theorem hashStep_eq_hashStepMul (prev : Int) (c : Nat) :
    hashStep prev c = hashStepMul prev c := by
  unfold hashStep hashStepMul
  apply toInt32_mod_eq
  have h1 := toInt32_emod_self prev
  have h2 := toInt32_emod_self (toInt32 prev * 32)
  omega

/-- The two hash folds agree from any accumulator. -/
theorem foldl_hashStep_eq (l : List Nat) :
    ∀ acc : Int, l.foldl hashStep acc = l.foldl hashStepMul acc := by
  induction l with
  | nil => intro acc; rfl
  | cons c rest ih =>
    intro acc
    simp only [List.foldl]
    rw [hashStep_eq_hashStepMul]
    exact ih _

/-! ## Claim theorems -/

/-- C7: the hex suffix for generated-id collisions is the hexadecimal
representation of the absolute value of the hash obtained by folding
`acc = acc * 31 + charCode` over the string's characters with wrap-around to
a signed 32-bit integer; the implementation's `(acc << 5) - acc + charCode`
(with `| 0`) computes exactly `acc * 31 + charCode` under 32-bit wrapping. -/
theorem hashCode_shift_fold_eq_mul31_fold :
    (∀ s : String, hashCodeInt s = hashCodeMulInt s) ∧
    (∀ s : String, hashCode s = toHex (hashCodeMulInt s).natAbs) ∧
    (∀ (prev : Int) (c : Nat), hashStep prev c = toInt32 (prev * 31 + (c : Int))) := by
  refine ⟨fun s => foldl_hashStep_eq _ 0, fun s => ?_, fun prev c => hashStep_eq_hashStepMul prev c⟩
  have hx : hashCodeInt s = hashCodeMulInt s := foldl_hashStep_eq _ 0
  unfold hashCode
  rw [hx]

/-- C6: a story without an explicit literal `id` attribute gets the derived
id: the name's camel-case fold (every maximal run of non-word characters
removed, the character following each run upper-cased) — the source's regex
translation agrees with the specification's formulation on every string, and
`My story!!` derives `MyStory`.  The walker always passes the empty
`storiesIds`, so the derived id is returned without a suffix. -/
theorem getStoryId_derived_id_is_camel_fold :
    (∀ (attributes : List AttrNode) (name : String),
        getStringFromAttribute "id" attributes = .ok none →
        getStoryId attributes name [] = .ok (generateStoryId name, false)) ∧
    (∀ xs : List Char, camelFold xs = specCamelFold xs) ∧
    generateStoryId "My story!!" = "MyStory" := by
  refine ⟨?_, ?_, ?_⟩
  · intro attributes name h
    unfold getStoryId
    rw [h]
    rfl
  · intro xs
    exact (camelFold_eq_specFoldAux xs).1
  · rfl

/-- C6 witness: concrete instance of the derived id. -/
theorem getStoryId_derived_id_is_camel_fold_witness :
    getStoryId [] "My story!!" [] = .ok ("MyStory", false) := by
  rw [getStoryId_derived_id_is_camel_fold.1 [] "My story!!" rfl,
    getStoryId_derived_id_is_camel_fold.2.2]

/-- C9: a marker whose fragment has zero child nodes yields no raw source
(`undefined`), never an empty string. -/
theorem getChildrenRawSource_empty_children_undefined :
    ∀ rawSource : String,
      getChildrenRawSource [] rawSource = .ok none ∧
      getChildrenRawSource [] rawSource ≠ .ok (some "") := by
  intro s
  refine ⟨rfl, ?_⟩
  intro h
  simp only [getChildrenRawSource] at h
  exact Option.noConfusion (Except.ok.inj h)

/-- Attribute list declaring only a literal `name`. -/
def storyAttrsName (n : String) : List AttrNode :=
  [.attribute "name" (.nodes [.textNode n])]

/-- A document with two markers declaring the same name `A`; the second also
carries an explicit id `B`, making the silent overwrite observable. -/
def duplicateNameDoc : List SvelteNode :=
  [.component 0 20 "Story" (storyAttrsName "A") [],
   .component 21 45 "Story"
     (storyAttrsName "A" ++ [.attribute "id" (.nodes [.textNode "B"])]) []]

/-- C1: the walk is supposed to make a duplicate story name fatal, but
`walkOnFragment` never adds any name to `storiesNames` (the set is created
once from the then-empty catalog and never updated), so `getStoryName`'s
conflict check cannot fire: a document with two stories both named `A`
completes without error and the second story silently overwrites the first
in the catalog (witness its explicit id `B`). -/
theorem walkOnFragment_duplicate_name_overwrites_without_error :
    walkOnFragment "Story" "" duplicateNameDoc =
      .ok { stories := [("A",
              { id := "B", name := "A", description := none,
                source := none, rawSource := none })],
            latestComment := none, warnings := 0 } := by
  rfl

/-- A document with two markers whose derived ids both fold to
`PrimaryCTA`. -/
def collidingIdsDoc : List SvelteNode :=
  [.component 0 30 "Story" (storyAttrsName "Primary CTA!!") [],
   .component 31 61 "Story" (storyAttrsName "Primary CTA??") []]

/-- C2: the suffix-on-collision branch of `getStoryId` is likewise dead in
the walk — `storiesIds` is never added to — so two stories whose derived ids
collide both keep the bare fold `PrimaryCTA`: the second story gets no hex
suffix and no warning is emitted (`warnings = 0`). -/
theorem walkOnFragment_generated_id_collision_unsuffixed_no_warning :
    walkOnFragment "Story" "" collidingIdsDoc =
      .ok { stories :=
              [("Primary CTA!!",
                { id := "PrimaryCTA", name := "Primary CTA!!", description := none,
                  source := none, rawSource := none }),
               ("Primary CTA??",
                { id := "PrimaryCTA", name := "Primary CTA??", description := none,
                  source := none, rawSource := none })],
            latestComment := none, warnings := 0 } := by
  rfl

/-- A legacy `<Meta>` tag with a static `title` and a literal `tags` array. -/
def metaTitleAttr : AttrNode := .attribute "title" (.nodes [.textNode "Example"])

/-- The `tags` attribute of the legacy `<Meta>` tag. -/
def metaTagsAttr : AttrNode :=
  .attribute "tags" (.nodes [.expressionTag (.arrayLit [.litString "autodocs"])])

/-- A legacy-mode document whose fragment holds only the `<Meta>` tag. -/
def legacyMetaDoc : RootNode :=
  { module := some [],
    fragment := [.component 0 30 "Meta" [metaTitleAttr, metaTagsAttr] []] }

/-- C5: in legacy mode the `<Meta>` tag's `title` and `tags` attributes are
supposed to set `meta.title` and `meta.tags`, but the source compares the
extracted values to the state with `===` instead of assigning them, so the
indexer result keeps `title` and `tags` unset even though the extractors
(same rules as the meta-object scan) do produce `Example` and
`["autodocs"]` for those attributes. -/
theorem parseForIndexer_legacy_meta_attributes_discarded :
    parseForIndexer true "stories.svelte" legacyMetaDoc = .ok initialIndexerState ∧
    getStringValueFromAttribute "stories.svelte" (some metaTitleAttr) =
      .ok (some "Example") ∧
    getArrayOfStringsValueFromAttribute "stories.svelte" (some metaTagsAttr) =
      .ok ["autodocs"] :=
  ⟨rfl, rfl, rfl⟩

/-- A module script whose only statement default-imports the addon package. -/
def defaultImportModule : List EsStmt :=
  [.importDeclaration pkgName [.importDefaultSpecifier "csf"]]

/-- C8: a default import of the marker-providing package is fatal in the
compiled-output locator pass, whose error names the offending file — but the
indexer pass completes successfully in both modes: its `Root` visitor visits
only the markup fragment and never the module script, so the indexer's
`ImportDeclaration` visitor (which would raise the same fatal error) is
unreachable. -/
theorem default_import_fatal_in_compiled_pass_only :
    parseForIndexer true "stories.svelte"
      { module := some defaultImportModule, fragment := [] } = .ok initialIndexerState ∧
    parseForIndexer false "stories.svelte"
      { module := some defaultImportModule, fragment := [] } = .ok initialIndexerState ∧
    extractCompiledASTNodes false (some "stories.svelte") defaultImportModule =
      .error (.defaultOrNamespaceImport (some "stories.svelte")) :=
  ⟨rfl, rfl, rfl⟩

/-- C3: for every recognized marker processed with a tracked latest comment,
the recorded story's description is the dedented comment text if and only if
the comment's end offset equals the marker's start offset minus one; in
particular any gap (such as a blank line pushing the comment's end further
from the marker's start) removes the association. -/
theorem visitNode_description_iff_comment_touches_marker
    (marker source cdata : String) (stories : List (String × StoryMeta))
    (warnings cend start stop : Nat) (attributes : List AttrNode)
    (fragment : List SvelteNode) (st' : WalkState)
    (h : visitNode marker source
          { stories := stories, latestComment := some (cend, cdata), warnings := warnings }
          (.component start stop marker attributes fragment) = .ok st') :
    ∃ storyName meta, st'.stories = setStory stories storyName meta ∧
      (meta.description = some (dedent cdata) ↔ (cend : Int) = (start : Int) - 1) ∧
      ((cend : Int) ≠ (start : Int) - 1 → meta.description = none) := by
  unfold visitNode at h
  rw [if_pos rfl] at h
  split at h
  · exact Except.noConfusion h
  · split at h
    · exact Except.noConfusion h
    · split at h
      · exact Except.noConfusion h
      · split at h
        · exact Except.noConfusion h
        · rw [← Except.ok.inj h]
          refine ⟨_, _, rfl, ?_, ?_⟩
          · by_cases hc : (cend : Int) = (start : Int) - 1
            · simp [hc]
            · simp [hc]
          · intro hne
            simp [hne]

/-- C3 witness: a comment ending at offset 10 touching a marker starting at
offset 11 is attached as the story's description. -/
theorem visitNode_description_iff_comment_touches_marker_witness :
    ∃ storyName meta,
      (WalkState.mk
        [("A", { id := "A", name := "A", description := some "hello",
                 source := none, rawSource := none })] none 0).stories =
        setStory [] storyName meta ∧
      (meta.description = some (dedent "hello") ↔
        ((10 : Nat) : Int) = ((11 : Nat) : Int) - 1) ∧
      (((10 : Nat) : Int) ≠ ((11 : Nat) : Int) - 1 → meta.description = none) :=
  visitNode_description_iff_comment_touches_marker "Story" "" "hello" [] 0 10 11 30
    (storyAttrsName "A") [] _ (by rfl)

/-- The attributes of a self-closing marker whose `children` references the
snippet name `tmpl`. -/
def childrenMissingSnippetAttrs : List AttrNode :=
  [.attribute "name" (.nodes [.textNode "Default"]),
   .attribute "children" (.nodes [.expressionTag (.ident "tmpl")])]

/-- An extracted-nodes bundle declaring no snippet blocks at all. -/
def childrenMissingSnippetNodes : SvelteASTNodes :=
  { snippetBlocks := [], setTemplateCall := none, metaComponentProperty := none }

/-- C4 counterexample: with `children={tmpl}` and no snippet named `tmpl`
declared anywhere, recovery raises no locator failure — it silently falls
back and synthesizes the placeholder body. -/
theorem getStoryChildrenRawSource_missing_snippet_no_failure :
    getStoryChildrenRawSource (some "stories.svelte") childrenMissingSnippetNodes ""
      childrenMissingSnippetAttrs [] = .ok "<!unspecified \x7b...args\x7d />" := by
  rfl

/-- C4 (amended): when a self-closing marker's `children` attribute is a
single identifier expression naming a snippet that does not exist, recovery
does not raise — the children-prop lookup yields nothing and recovery
silently falls back to the set-template case and then the synthesized
placeholder (a locator failure is raised only for a malformed `children`
value: shorthand, text, or a non-identifier expression). -/
theorem getStoryChildrenRawSource_missing_snippet_falls_through
    (filename : Option String) (svelteASTNodes : SvelteASTNodes)
    (originalCode nm : String) (attributes : List AttrNode)
    (hattr : lookupAttribute "children" attributes =
      some (.attribute "children" (.nodes [.expressionTag (.ident nm)])))
    (hmiss : findTemplateSnippetBlock nm svelteASTNodes = none) :
    getStoryChildrenRawSource filename svelteASTNodes originalCode attributes [] =
      (match findSetTemplateSnippetBlock filename svelteASTNodes with
       | .error e => .error e
       | .ok (some blk) => getSnippetBlockBodyRawCode originalCode blk
       | .ok none =>
         match getDefineMetaComponentName svelteASTNodes with
         | .error e => .error e
         | .ok n => .ok ("<" ++ n ++ " \x7b...args\x7d />")) := by
  have hchildren :
      findChildrenPropSnippetBlock attributes filename svelteASTNodes = .ok none := by
    unfold findChildrenPropSnippetBlock
    rw [hattr]
    simp [hmiss]
  unfold getStoryChildrenRawSource
  rw [hchildren]

/-- A bundle with a snippet block named `other` selected by `setTemplate`. -/
def setTemplateFallbackNodes : SvelteASTNodes :=
  { snippetBlocks := [⟨"other", [.textNode 0 7 "<Btn />"]⟩],
    setTemplateCall := some [.ident "other"],
    metaComponentProperty := none }

/-- C4 witness: the fall-through lands on the set-template recovery when a
`setTemplate` snippet exists. -/
theorem getStoryChildrenRawSource_missing_snippet_falls_through_witness :
    getStoryChildrenRawSource (some "f.svelte") setTemplateFallbackNodes "<Btn />"
      childrenMissingSnippetAttrs [] =
      (match findSetTemplateSnippetBlock (some "f.svelte") setTemplateFallbackNodes with
       | .error e => .error e
       | .ok (some blk) => getSnippetBlockBodyRawCode "<Btn />" blk
       | .ok none =>
         match getDefineMetaComponentName setTemplateFallbackNodes with
         | .error e => .error e
         | .ok n => .ok ("<" ++ n ++ " \x7b...args\x7d />")) :=
  getStoryChildrenRawSource_missing_snippet_falls_through (some "f.svelte")
    setTemplateFallbackNodes "<Btn />" "tmpl" childrenMissingSnippetAttrs
    (by rfl) (by rfl)

/-- Any catalog entry after a `state.stories[name] = meta` assignment is an
old entry or carries the assigned key. -/
theorem mem_setStory {stories : List (String × StoryMeta)} {name : String}
    {meta : StoryMeta} {p : String × StoryMeta}
    (h : p ∈ setStory stories name meta) : p ∈ stories ∨ p.1 = name := by
  unfold setStory at h
  split at h
  · rcases List.mem_map.mp h with ⟨q, hq, hfq⟩
    by_cases hqn : q.1 = name
    · right
      rw [← hfq]
      simp [hqn]
    · left
      rw [← hfq]
      simpa [hqn] using hq
  · rcases List.mem_append.mp h with hmem | hmem
    · exact Or.inl hmem
    · right
      rw [List.mem_singleton.mp hmem]

/-- C10: the `Component` visitor never invokes the continuation.  A visited
component whose tag is not the marker leaves the catalog untouched (only the
comment cursor is cleared), whatever its subtree contains; and any entry of
the catalog after visiting any component is an old entry or the component's
own story (keyed by its own `name` attribute) — so a marker nested beneath
any component, marker or not, is never recognized and contributes nothing. -/
theorem visitNode_component_prunes_subtree
    (marker source name : String) (st : WalkState) (start stop : Nat)
    (attributes : List AttrNode) (fragment : List SvelteNode) :
    (name ≠ marker →
      visitNode marker source st (.component start stop name attributes fragment) =
        .ok { st with latestComment := none }) ∧
    (∀ st',
      visitNode marker source st (.component start stop name attributes fragment) =
        .ok st' →
      ∀ p : String × StoryMeta, p ∈ st'.stories →
        p ∈ st.stories ∨ getStoryName attributes [] = .ok p.1) := by
  constructor
  · intro hne
    unfold visitNode
    rw [if_neg hne]
  · intro st' h p hp
    unfold visitNode at h
    by_cases hne : name = marker
    · rw [if_pos hne] at h
      split at h
      · exact Except.noConfusion h
      · split at h
        · exact Except.noConfusion h
        · split at h
          · exact Except.noConfusion h
          · split at h
            · exact Except.noConfusion h
            · rw [← Except.ok.inj h] at hp
              rcases mem_setStory hp with hmem | hkey
              · exact Or.inl hmem
              · right
                rw [hkey]
                assumption
    · rw [if_neg hne] at h
      rw [← Except.ok.inj h] at hp
      exact Or.inl hp

/-- C10 witness: a marker nested inside a non-marker component contributes
no catalog entry — the wrapper is visited, its subtree is pruned, and the
state's catalog stays empty. -/
theorem visitNode_component_prunes_subtree_witness :
    visitNode "Story" "" { stories := [], latestComment := none, warnings := 0 }
      (.component 0 50 "Wrapper" []
        [.component 5 25 "Story" (storyAttrsName "Nested") []]) =
      .ok { stories := [], latestComment := none, warnings := 0 } :=
  (visitNode_component_prunes_subtree "Story" "" "Wrapper"
      { stories := [], latestComment := none, warnings := 0 } 0 50 []
      [.component 5 25 "Story" (storyAttrsName "Nested") []]).1 (by decide)
